import Mathlib

/-!
Shallow embedding of the ball-event scoring engine of the cricket scoring
application (src/lib/firebase/scoring.ts, src/lib/firebase/matches.ts and the
bowler/batter selection handlers of src/app/match/[id]/page.tsx).

The Firestore transaction of `recordBall` / `undoLastBall` is modelled as a
pure function from the match aggregate to `Except String Match`: an exception
thrown anywhere inside the transaction body aborts the transaction with no
write, which corresponds to returning `.error` and leaving the input aggregate
untouched.  The balls sub-collection of the innings currently in progress
(`getInningsId` is invariant under `recordBall`/`undoLastBall`, since neither
changes `toss` nor `batting_team_id`) is modelled as the list `Match.log`,
ordered by timestamp; the `orderBy timestamp desc, limit 1` query is `getLast?`
and deleting that document is `dropLast`.  The `Date.now()` uniqueness suffix
appended to identifiers of illegal deliveries is an external clock value and is
abstracted to the constant suffix "_x".  JS `undefined` on an optional field is
`none`; the absent `current_innings` field is modelled as `0` (all the code
ever does with it is compare it to `2`).
-/

namespace Cricket

inductive MatchStatus
  | scheduled | live | completed | abandoned
deriving DecidableEq

inductive WicketType
  | bowled | caught | lbw | run_out | stumped | hit_wicket | retired
deriving DecidableEq

inductive ExtraType
  | wide | no_ball | bye | leg_bye | penalty
deriving DecidableEq

structure Score where
  runs : Nat
  wickets : Nat
  overs : Nat
  balls : Nat
deriving DecidableEq

structure BatterStats where
  runs : Nat
  balls : Nat
deriving DecidableEq

structure BowlerStats where
  runs : Nat
  balls : Nat
  wickets : Nat
deriving DecidableEq

/-- `player_stats` maps, modelled as insertion-ordered association lists
(JS object keys keep insertion order). -/
structure PlayerStatsState where
  batters : List (String × BatterStats)
  bowlers : List (String × BowlerStats)
deriving DecidableEq

structure Extras where
  type : ExtraType
  runs : Nat
deriving DecidableEq

/-- The wicket object stored on a `BallEvent` (`is_out: true, type, player_id`). -/
structure WicketRecord where
  is_out : Bool
  type : WicketType
  player_id : String
deriving DecidableEq

structure OverBall where
  id : String
  runs_off_bat : Nat
  extras : Option Extras
  wicket : Option WicketRecord
deriving DecidableEq

structure MatchLiveState where
  batting_team_id : String
  bowling_team_id : String
  striker_id : String
  non_striker_id : String
  bowler_id : String
  score : Score
  this_over : List OverBall
  player_stats : PlayerStatsState
  is_free_hit : Bool
  last_ball_id : Option String
  last_bowler_id : Option String
  first_innings_total : Option Nat
  dismissed_batter_ids : List String
  current_innings : Nat
  first_batting_team_id : Option String
  second_batting_team_id : Option String
deriving DecidableEq

structure BallEvent where
  id : String
  runs_off_bat : Nat
  extras : Option Extras
  wicket : Option WicketRecord
  pre_ball_state : MatchLiveState
  post_ball_state : MatchLiveState
deriving DecidableEq

inductive ResultType
  | win | tie
deriving DecidableEq

structure MatchResult where
  type : ResultType
  winner_team_id : Option String
  loser_team_id : Option String
  margin : Option String
  summary : String
  first_innings_runs : Nat
  second_innings_runs : Nat
deriving DecidableEq

structure Player where
  id : String
  name : String
deriving DecidableEq

structure Team where
  id : String
  name : String
  players : List Player
deriving DecidableEq

structure MatchConfig where
  total_overs : Nat
  wide_runs : Nat
  no_ball_runs : Nat
deriving DecidableEq

structure Match where
  owner_id : String
  authorized_user_ids : List String
  status : MatchStatus
  config : MatchConfig
  team_a : Team
  team_b : Team
  live_state : MatchLiveState
  result : Option MatchResult
  /-- balls sub-collection of the innings in progress, in timestamp order -/
  log : List BallEvent
deriving DecidableEq

/-- The wicket member of `BallInput` (`wicket?: {type, player_id, is_striker_out}`).
`is_striker_out` is an `Option` because `recordBall` reads it as
`ballInput.wicket.is_striker_out ?? true`. -/
structure WicketInput where
  type : WicketType
  player_id : String
  is_striker_out : Option Bool
deriving DecidableEq

structure BallInput where
  runs_off_bat : Nat
  extras : Option Extras
  wicket : Option WicketInput
deriving DecidableEq

/-- `matchData.teams[teamId]` — only the keys `"a"` and `"b"` exist. -/
def getTeam (m : Match) (teamId : String) : Option Team :=
  if teamId = "a" then some m.team_a
  else if teamId = "b" then some m.team_b
  else none

/-- `matchData.teams[id]?.players.length ?? 0` for an arbitrary team id. -/
def teamSizeOf (m : Match) (teamId : String) : Nat :=
  ((getTeam m teamId).map fun t => t.players.length).getD 0

/-- `battingTeam?.players.length ?? 0` (scoring.ts lines 115-118). -/
def battingTeamSize (m : Match) : Nat :=
  teamSizeOf m m.live_state.batting_team_id

/-- `assertScoringAccess`: owner or member of `authorized_user_ids`. -/
def scoringAccessOk (m : Match) (uid : String) : Bool :=
  m.owner_id = uid || m.authorized_user_ids.contains uid

/-- `calculateRuns`: `runs_off_bat + (extras?.runs ?? 0)`. -/
def calculateRuns (ballInput : BallInput) : Nat :=
  ballInput.runs_off_bat + (match ballInput.extras with
    | some e => e.runs
    | none => 0)

/-- `isLegalDelivery`: no extras, or extras type not wide / no-ball. -/
def isLegalDelivery : Option Extras → Bool
  | none => true
  | some e => decide (¬(e.type = ExtraType.wide ∨ e.type = ExtraType.no_ball))

/-- `wicketCountsForBowler`: a dismissal type credited to the bowler
(not run-out, not retired; `null`/absent counts as not credited). -/
def wicketCountsForBowler : Option WicketType → Bool
  | none => false
  | some t => decide (¬(t = WicketType.run_out ∨ t = WicketType.retired))

/-- Insertion into a JS `Set` built left to right: skip elements already
seen. -/
def jsDedupAux (seen : List String) : List String → List String
  | [] => []
  | x :: xs =>
    if x ∈ seen then jsDedupAux seen xs
    else x :: jsDedupAux (x :: seen) xs

/-- `new Set(xs)` then `Array.from`: deduplicate keeping first occurrences. -/
def jsDedup (l : List String) : List String := jsDedupAux [] l

/-- Association-list read: JS `map[key]`, `none` when absent. -/
def assocFind {α : Type} (xs : List (String × α)) (k : String) : Option α :=
  (xs.find? fun p => p.1 = k).map fun p => p.2

/-- Association-list write: JS `map[key] = v` (replace in place, else append). -/
def assocUpdate {α : Type} (xs : List (String × α)) (k : String) (v : α) :
    List (String × α) :=
  if xs.any fun p => p.1 = k then
    xs.map fun p => if p.1 = k then (k, v) else p
  else xs ++ [(k, v)]

/-- JS `array.slice(-n)`: the last `n` elements. -/
def takeLast {α : Type} (n : Nat) (l : List α) : List α :=
  l.drop (l.length - n)

/-- `ballInput.wicket?.player_id ?? ""` — the JS truthiness guard
`if (ballInput.wicket?.player_id)` is `wicketPlayerId i ≠ ""`. -/
def wicketPlayerId (ballInput : BallInput) : String :=
  match ballInput.wicket with
  | some w => w.player_id
  | none => ""

def wicketTaken (ballInput : BallInput) : Bool :=
  wicketPlayerId ballInput ≠ ""

/-- `ballInput.wicket.is_striker_out ?? true`. -/
def isStrikerOut (ballInput : BallInput) : Bool :=
  match ballInput.wicket with
  | some w => w.is_striker_out.getD true
  | none => true

/-- Whether this delivery completes the over: it is legal and the incremented
ball count reaches 6 (scoring.ts lines 179-184). -/
def ballCompletesOver (m : Match) (ballInput : BallInput) : Bool :=
  isLegalDelivery ballInput.extras && decide (6 ≤ m.live_state.score.balls + 1)

/-- `liveState.bowler_id && liveState.last_bowler_id && bowler === last`
(both truthy and equal; `""` and `undefined` are falsy). -/
def sameBowlerAsLast (s : MatchLiveState) : Bool :=
  match s.last_bowler_id with
  | none => false
  | some l => decide (s.bowler_id ≠ "" ∧ l ≠ "" ∧ s.bowler_id = l)

/-- Striker slot after wicket handling (scoring.ts lines 237-242):
cleared when a wicket fell and the striker was out (default). -/
def strikerAfterWicket (m : Match) (ballInput : BallInput) : String :=
  if wicketTaken ballInput && isStrikerOut ballInput then ""
  else m.live_state.striker_id

/-- Non-striker slot after wicket handling: cleared when a wicket fell and
`is_striker_out` was explicitly false. -/
def nonStrikerAfterWicket (m : Match) (ballInput : BallInput) : String :=
  if wicketTaken ballInput && !isStrikerOut ballInput then ""
  else m.live_state.non_striker_id

/-- Runs charged to the bowler: byes and leg-byes are not against the bowler. -/
def bowlerCreditedRuns (extras : Option Extras) (totalRuns : Nat) : Nat :=
  match extras with
  | some e => if e.type = ExtraType.bye ∨ e.type = ExtraType.leg_bye then 0 else totalRuns
  | none => totalRuns

/-- `ballInput.extras?.type !== WIDE && !== NO_BALL` (striker faced a ball). -/
def incrementStrikerBall : Option Extras → Bool
  | none => true
  | some e => decide (¬(e.type = ExtraType.wide ∨ e.type = ExtraType.no_ball))

/-- `ballInput.extras?.type === NO_BALL`. -/
def isNoBall : Option Extras → Bool
  | none => false
  | some e => decide (e.type = ExtraType.no_ball)

/-- `"3 wickets"` / `"1 wicket"` style margin strings. -/
def pluralize (n : Nat) (unit : String) : String :=
  toString n ++ " " ++ unit ++ (if n = 1 then "" else "s")

/-- `liveState.second_batting_team_id ?? liveState.batting_team_id`. -/
def chasingTeamIdOf (s : MatchLiveState) : String :=
  s.second_batting_team_id.getD s.batting_team_id

/-- `liveState.first_batting_team_id ?? liveState.bowling_team_id`. -/
def defendingTeamIdOf (s : MatchLiveState) : String :=
  s.first_batting_team_id.getD s.bowling_team_id

/-- `Math.max(0, Math.max(chasingTeamSize - 1, 1) - wicketsLost)` (Nat
subtraction is already truncated). -/
def chaseWicketsRemaining (m : Match) (s : MatchLiveState) : Nat :=
  max (teamSizeOf m (chasingTeamIdOf s) - 1) 1 - s.score.wickets

/-- `Math.max(0, total_overs * 6 - (overs * 6 + balls))`. -/
def chaseBallsRemaining (m : Match) (s : MatchLiveState) : Nat :=
  m.config.total_overs * 6 - (s.score.overs * 6 + s.score.balls)

/-- `teams[id].name` with the code's fallback label (an id that is neither
`"a"` nor `"b"` is unreachable when this is evaluated). -/
def teamNameOf (m : Match) (teamId : String) (fallback : String) : String :=
  match getTeam m teamId with
  | some t => t.name
  | none => fallback

/-- The first error thrown inside the `recordBall` transaction body, if any,
in source order (scoring.ts lines 104-176).  All of these throws happen before
`transaction.set` / `transaction.update`, so an error aborts the transaction
with nothing written. -/
def recordBallError (matchData : Match) (uid : String) (ballInput : BallInput) :
    Option String :=
  if ¬ scoringAccessOk matchData uid then
    some "You do not have permission to score this match."
  else if matchData.status ≠ MatchStatus.live then
    some "Match is not live. Cannot record ball."
  else if 0 < battingTeamSize matchData - 1 ∧
      battingTeamSize matchData - 1 ≤ matchData.live_state.score.wickets then
    some "Innings complete. All available batters have been dismissed."
  else if matchData.live_state.striker_id ≠ "" ∧
      matchData.live_state.striker_id ∈ matchData.live_state.dismissed_batter_ids then
    some "Striker has already been dismissed. Please select a new batter."
  else if matchData.live_state.non_striker_id ≠ "" ∧
      matchData.live_state.non_striker_id ∈ matchData.live_state.dismissed_batter_ids then
    some "Non-striker has already been dismissed. Please select a new batter."
  else if matchData.config.total_overs ≤ matchData.live_state.score.overs then
    some ("Innings complete! " ++ toString matchData.config.total_overs ++
      " overs have been bowled. Please switch to the next innings.")
  else if matchData.live_state.score.balls = 0 ∧ 0 < matchData.live_state.score.overs ∧
      sameBowlerAsLast matchData.live_state then
    some "Over is complete. Please select a new bowler before recording the next ball."
  else if sameBowlerAsLast matchData.live_state then
    some "A bowler cannot bowl consecutive overs. Please select a different bowler."
  else
    match ballInput.wicket with
    | some w =>
      if w.player_id ≠ "" ∧ w.player_id ∈ matchData.live_state.dismissed_batter_ids then
        some "This batter has already been dismissed."
      else none
    | none => none

/-- The state delta computed by the `recordBall` transaction body once the
preconditions hold (scoring.ts lines 111-301): the new `live_state` and the
`BallEvent` appended to the ledger. -/
def applyBall (matchData : Match) (ballInput : BallInput) :
    MatchLiveState × BallEvent :=
  let preBallState := matchData.live_state
  let totalRuns := calculateRuns ballInput
  let legalDelivery := isLegalDelivery ballInput.extras
  -- `new Set(liveState.dismissed_batter_ids ?? [])`, written back on line 121
  let dismissed0 := jsDedup preBallState.dismissed_batter_ids
  let pid := wicketPlayerId ballInput
  let dismissed1 :=
    if wicketTaken ballInput then
      (if pid ∈ dismissed0 then dismissed0 else dismissed0 ++ [pid])
    else dismissed0
  let runs1 := preBallState.score.runs + totalRuns
  let wickets1 := preBallState.score.wickets + (if wicketTaken ballInput then 1 else 0)
  let ballsA := if legalDelivery then preBallState.score.balls + 1
    else preBallState.score.balls
  let overCompleted := ballCompletesOver matchData ballInput
  let balls1 := if overCompleted then 0 else ballsA
  let overs1 := if overCompleted then preBallState.score.overs + 1
    else preBallState.score.overs
  let lastBowler1 := if overCompleted then some preBallState.bowler_id
    else preBallState.last_bowler_id
  let strikerId := preBallState.striker_id
  let bowlerId := preBallState.bowler_id
  let batters1 :=
    if strikerId ≠ "" then
      let existingBatter := (assocFind preBallState.player_stats.batters strikerId).getD ⟨0, 0⟩
      assocUpdate preBallState.player_stats.batters strikerId
        ⟨existingBatter.runs + ballInput.runs_off_bat,
         existingBatter.balls + (if incrementStrikerBall ballInput.extras then 1 else 0)⟩
    else preBallState.player_stats.batters
  let bowlers1 :=
    if bowlerId ≠ "" then
      let existingBowler := (assocFind preBallState.player_stats.bowlers bowlerId).getD ⟨0, 0, 0⟩
      assocUpdate preBallState.player_stats.bowlers bowlerId
        ⟨existingBowler.runs + bowlerCreditedRuns ballInput.extras totalRuns,
         existingBowler.balls + (if legalDelivery then 1 else 0),
         existingBowler.wickets +
           (if wicketTaken ballInput &&
               wicketCountsForBowler (ballInput.wicket.map fun w => w.type) then 1 else 0)⟩
    else preBallState.player_stats.bowlers
  let striker1 := strikerAfterWicket matchData ballInput
  let nonStriker1 := nonStrikerAfterWicket matchData ballInput
  let shouldRotate :=
    decide ((ballInput.runs_off_bat % 2 = 1 ∨ overCompleted = true) ∧
      striker1 ≠ "" ∧ nonStriker1 ≠ "")
  let striker2 := if shouldRotate then nonStriker1 else striker1
  let nonStriker2 := if shouldRotate then striker1 else nonStriker1
  let ballIdentifier := toString preBallState.score.overs ++ "_" ++
    toString preBallState.score.balls ++ (if legalDelivery then "" else "_x")
  let eventWicket := ballInput.wicket.map fun w => WicketRecord.mk true w.type w.player_id
  let overEntry : OverBall := ⟨ballIdentifier, ballInput.runs_off_bat, ballInput.extras, eventWicket⟩
  let newLive : MatchLiveState :=
    { preBallState with
      score := ⟨runs1, wickets1, overs1, balls1⟩
      player_stats := ⟨batters1, bowlers1⟩
      striker_id := striker2
      non_striker_id := nonStriker2
      dismissed_batter_ids := dismissed1
      last_bowler_id := lastBowler1
      is_free_hit := isNoBall ballInput.extras
      last_ball_id := some ballIdentifier
      this_over := takeLast 6 (preBallState.this_over ++ [overEntry]) }
  (newLive, ⟨ballIdentifier, ballInput.runs_off_bat, ballInput.extras, eventWicket,
    preBallState, newLive⟩)

/-- `matchResultPayload` (scoring.ts lines 303-381): second-innings result
determination, evaluated on the post-ball live state. -/
def computeResultPayload (matchData : Match) (liveState : MatchLiveState) :
    Option MatchResult :=
  if liveState.current_innings = 2 then
    match liveState.first_innings_total with
    | none => none
    | some firstInningsRuns =>
      let target := firstInningsRuns + 1
      let chasingRuns := liveState.score.runs
      let chasingTeamId := chasingTeamIdOf liveState
      let defendingTeamId := defendingTeamIdOf liveState
      let wicketsRemaining := chaseWicketsRemaining matchData liveState
      let ballsRemaining := chaseBallsRemaining matchData liveState
      let chasingTeamName := teamNameOf matchData chasingTeamId "Chasing team"
      let defendingTeamName := teamNameOf matchData defendingTeamId "Defending team"
      let oversComplete := matchData.config.total_overs ≤ liveState.score.overs ∧
        liveState.score.balls = 0
      let allOut := wicketsRemaining = 0
      if target ≤ chasingRuns then
        let margin := if 0 < wicketsRemaining then pluralize wicketsRemaining "wicket"
          else pluralize ballsRemaining "ball"
        some ⟨ResultType.win, some chasingTeamId, some defendingTeamId, some margin,
          chasingTeamName ++ " won by " ++ margin, firstInningsRuns, chasingRuns⟩
      else if allOut ∨ oversComplete then
        if chasingRuns = firstInningsRuns then
          some ⟨ResultType.tie, none, none, none,
            "Match tied! Both teams scored " ++ toString chasingRuns ++ " runs",
            firstInningsRuns, chasingRuns⟩
        else
          let margin := firstInningsRuns - chasingRuns
          some ⟨ResultType.win, some defendingTeamId, some chasingTeamId,
            some (pluralize margin "run"),
            defendingTeamName ++ " won by " ++ pluralize margin "run",
            firstInningsRuns, chasingRuns⟩
      else none
  else none

/-- The committed effect of a successful `recordBall` transaction: the new
live state is written, the ball event is appended, and when a result payload
was produced the status flips to completed with the result attached
(scoring.ts lines 383-398). -/
def recordBallSuccess (matchData : Match) (ballInput : BallInput) : Match :=
  let newLive := (applyBall matchData ballInput).1
  let ev := (applyBall matchData ballInput).2
  let payload := computeResultPayload matchData newLive
  { matchData with
    live_state := newLive
    log := matchData.log ++ [ev]
    status := if payload.isSome then MatchStatus.completed else matchData.status
    result := payload.or matchData.result }

/-- `recordBall(matchId, ballInput)`: `currentUser` is the authenticated user
(`none` = not logged in), `store` is the match document (`none` = missing). -/
def recordBall (currentUser : Option String) (store : Option Match)
    (ballInput : BallInput) : Except String Match :=
  match currentUser with
  | none => .error "You must be logged in to score this match."
  | some uid =>
    match store with
    | none => .error "Match not found."
    | some matchData =>
      match recordBallError matchData uid ballInput with
      | some e => .error e
      | none => .ok (recordBallSuccess matchData ballInput)

/-- Clearing of `last_bowler_id` on undo when the restored state sits at an
over boundary (scoring.ts lines 449-453). -/
def clearBoundaryBowler (s : MatchLiveState) : MatchLiveState :=
  if s.score.balls = 0 ∧ 0 < s.score.overs then { s with last_bowler_id := none }
  else s

/-- `undoLastBall(matchId)`: restores the pre-ball snapshot of the most recent
ball event of the innings in progress, unconditionally sets the status back to
live and deletes the result field, and deletes the event. -/
def undoLastBall (currentUser : Option String) (store : Option Match) :
    Except String Match :=
  match currentUser with
  | none => .error "You must be logged in to score this match."
  | some uid =>
    match store with
    | none => .error "Match not found."
    | some matchData =>
      if ¬ scoringAccessOk matchData uid then
        .error "You do not have permission to score this match."
      else
        match matchData.log.getLast? with
        | none => .error "No balls recorded yet. Cannot undo."
        | some ballData =>
          .ok { matchData with
            live_state := clearBoundaryBowler ballData.pre_ball_state
            status := MatchStatus.live
            result := none
            log := matchData.log.dropLast }

/-- `endMatch(matchId)` (matches.ts lines 795-820): manual termination, sets
completed without computing a result. -/
def endMatch (currentUser : Option String) (store : Option Match) :
    Except String Match :=
  match currentUser with
  | none => .error "You must be logged in to perform this action"
  | some uid =>
    match store with
    | none => .error "Match not found"
    | some matchData =>
      if ¬ scoringAccessOk matchData uid then
        .error "You do not have permission to access this match"
      else if matchData.status ≠ MatchStatus.live then
        .error "Only live matches can be ended"
      else
        .ok { matchData with status := MatchStatus.completed }

/-- `handleNewBowlerSelect` (match page, lines 525-556): sets
`live_state.bowler_id`, refusing the bowler who just completed an over. -/
def handleNewBowlerSelect (m : Match) (newBowlerId : String) : Match :=
  if newBowlerId = "" then m
  else if m.status = MatchStatus.completed then m
  else if m.live_state.last_bowler_id = some newBowlerId then m
  else { m with live_state := { m.live_state with bowler_id := newBowlerId } }

/-- `handleNewBatterSelect` (match page, lines 479-499): sets
`live_state.striker_id` to the replacement batter. -/
def handleNewBatterSelect (m : Match) (newBatterId : String) : Match :=
  if newBatterId = "" then m
  else if m.status = MatchStatus.completed then m
  else { m with live_state := { m.live_state with striker_id := newBatterId } }

/-- The match produced by a `recordBall` call that is known to succeed
(convenience for naming concrete post-states in closed statements). -/
def stepOk (m : Match) (uid : String) (ballInput : BallInput) : Match :=
  match recordBall (some uid) (some m) ballInput with
  | .ok m' => m'
  | .error _ => m

/-- The match produced by an `undoLastBall` call that is known to succeed. -/
def undoOk (m : Match) (uid : String) : Match :=
  match undoLastBall (some uid) (some m) with
  | .ok m' => m'
  | .error _ => m

/-- The store-level effect of a `recordBall` call: a thrown error aborts the
transaction, leaving the match document exactly as it was. -/
def recordBallStore (currentUser : Option String) (store : Option Match)
    (ballInput : BallInput) : Option Match :=
  match recordBall currentUser store ballInput with
  | .ok m' => some m'
  | .error _ => store

/-- `n` successful `recordBall` calls starting from `start` (each call may be
made by any logged-in user). -/
inductive RecordSeq (start : Match) : Nat → Match → Prop
  | nil : RecordSeq start 0 start
  | snoc {n : Nat} {m₁ m₂ : Match} (u : Option String) (i : BallInput) :
      RecordSeq start n m₁ → recordBall u (some m₁) i = .ok m₂ →
      RecordSeq start (n + 1) m₂

/-- `n` consecutive `undoLastBall` calls by user `u`. -/
def undoN (u : Option String) : Nat → Match → Except String Match
  | 0, m => .ok m
  | n + 1, m =>
    match undoLastBall u (some m) with
    | .error e => .error e
    | .ok m' => undoN u n m'

/-- One step of live scoring, weighted by how many legal deliveries it
records: a successful legal `recordBall` (weight 1), a successful wide/no-ball
`recordBall` (weight 0), or a bowler / replacement-batter selection
(weight 0). -/
inductive ScoringStep : Match → Nat → Match → Prop
  | record_legal {m m' : Match} (u : Option String) (i : BallInput) :
      recordBall u (some m) i = .ok m' → isLegalDelivery i.extras = true →
      ScoringStep m 1 m'
  | record_illegal {m m' : Match} (u : Option String) (i : BallInput) :
      recordBall u (some m) i = .ok m' → isLegalDelivery i.extras = false →
      ScoringStep m 0 m'
  | select_bowler (m : Match) (b : String) :
      ScoringStep m 0 (handleNewBowlerSelect m b)
  | select_batter (m : Match) (b : String) :
      ScoringStep m 0 (handleNewBatterSelect m b)

/-- A sequence of scoring steps containing exactly `n` legal deliveries. -/
inductive ScoringChain : Match → Nat → Match → Prop
  | nil (m : Match) : ScoringChain m 0 m
  | step {m m₁ m₂ : Match} {n k : Nat} :
      ScoringChain m n m₁ → ScoringStep m₁ k m₂ → ScoringChain m (n + k) m₂

/-- Modelled from the claim's enumeration of `recordBall` preconditions (for a
present match and logged-in caller): caller unauthorized, match not live,
innings complete by overs or by wickets, a dismissed player occupying striker
or non-striker, consecutive-over violation (which subsumes the over-boundary
pending-bowler case), or an already-dismissed player in the wicket input.
This is the spec-side predicate the `recordBall` error behaviour is compared
against. -/
def listedViolation (m : Match) (uid : String) (i : BallInput) : Prop :=
  scoringAccessOk m uid = false ∨
  m.status ≠ MatchStatus.live ∨
  (0 < battingTeamSize m - 1 ∧
    battingTeamSize m - 1 ≤ m.live_state.score.wickets) ∨
  (m.live_state.striker_id ≠ "" ∧
    m.live_state.striker_id ∈ m.live_state.dismissed_batter_ids) ∨
  (m.live_state.non_striker_id ≠ "" ∧
    m.live_state.non_striker_id ∈ m.live_state.dismissed_batter_ids) ∨
  m.config.total_overs ≤ m.live_state.score.overs ∨
  sameBowlerAsLast m.live_state = true ∨
  (wicketPlayerId i ≠ "" ∧ wicketPlayerId i ∈ m.live_state.dismissed_batter_ids)

/- ## Concrete fixtures -/

def mkPlayer (i : String) : Player := ⟨i, i⟩

def mkTeam (teamId : String) (name : String) (ids : List String) : Team :=
  ⟨teamId, name, ids.map mkPlayer⟩

def baseLive : MatchLiveState :=
  { batting_team_id := "a", bowling_team_id := "b",
    striker_id := "s1", non_striker_id := "s2", bowler_id := "b1",
    score := ⟨0, 0, 0, 0⟩, this_over := [], player_stats := ⟨[], []⟩,
    is_free_hit := false, last_ball_id := none, last_bowler_id := none,
    first_innings_total := none, dismissed_batter_ids := [],
    current_innings := 1, first_batting_team_id := some "a",
    second_batting_team_id := some "b" }

def baseMatch : Match :=
  { owner_id := "u", authorized_user_ids := ["u"], status := MatchStatus.live,
    config := ⟨20, 1, 1⟩,
    team_a := mkTeam "a" "Alpha" ["s1", "s2", "s3"],
    team_b := mkTeam "b" "Beta" ["b1", "b2", "b3"],
    live_state := baseLive, result := none, log := [] }

def ball0 : BallInput := ⟨0, none, none⟩

def ball1 : BallInput := ⟨1, none, none⟩

def ball4 : BallInput := ⟨4, none, none⟩

def wideBall : BallInput := ⟨0, some ⟨ExtraType.wide, 1⟩, none⟩

/-- C1 counterexample start: restored state sits at an over boundary with a
recorded previous bowler different from the current one. -/
def c1cm : Match :=
  { baseMatch with live_state :=
    { baseLive with score := ⟨6, 0, 1, 0⟩, last_bowler_id := some "b0" } }

/-- C1 witness start: mid-over state, so the round trip is exact. -/
def c1wm : Match :=
  { baseMatch with live_state := { baseLive with score := ⟨3, 0, 0, 2⟩ } }

/-- C2 counterexample start: three balls into an over. -/
def c2cm : Match :=
  { baseMatch with live_state := { baseLive with score := ⟨0, 0, 0, 3⟩ } }

/-- C3 fixture: spec scenario, second innings chasing 150, score 149/3. -/
def c3m : Match :=
  { owner_id := "u", authorized_user_ids := ["u"], status := MatchStatus.live,
    config := ⟨20, 1, 1⟩,
    team_a := mkTeam "a" "Alpha" ["a1", "a2", "a3", "a4", "a5"],
    team_b := mkTeam "b" "Beta" ["p1", "p2", "p3", "p4", "p5"],
    live_state :=
      { batting_team_id := "b", bowling_team_id := "a",
        striker_id := "p1", non_striker_id := "p2", bowler_id := "a1",
        score := ⟨149, 3, 10, 2⟩, this_over := [], player_stats := ⟨[], []⟩,
        is_free_hit := false, last_ball_id := none, last_bowler_id := none,
        first_innings_total := some 150,
        dismissed_batter_ids := ["p3", "p4"],
        current_innings := 2, first_batting_team_id := some "a",
        second_batting_team_id := some "b" },
    result := none, log := [] }

def ball2 : BallInput := ⟨2, none, none⟩

/-- C4 counterexample start: fifth ball of the over already bowled, so the
next legal delivery completes the over. -/
def c4cm : Match :=
  { baseMatch with live_state := { baseLive with score := ⟨0, 0, 0, 5⟩ } }

/-- C4 witness: the bowler on record is also the bowler who completed the
most recent over. -/
def c4wm : Match :=
  { baseMatch with live_state := { baseLive with last_bowler_id := some "b1" } }

/-- C5 counterexample: batting team with a single player; its only batter is
on strike with the non-striker slot empty. -/
def c5cm : Match :=
  { baseMatch with
    team_a := mkTeam "a" "Alpha" ["s1"],
    live_state := { baseLive with non_striker_id := "" } }

def c5wicketBall : BallInput :=
  ⟨0, none, some ⟨WicketType.bowled, "s1", some true⟩⟩

/-- C5 witness: two-player batting team that has already lost one wicket. -/
def c5wm : Match :=
  { baseMatch with
    team_a := mkTeam "a" "Alpha" ["s1", "s2"],
    live_state := { baseLive with score := ⟨0, 1, 0, 0⟩ } }

/-- C9 failing input: the current delivery is a free hit (previous delivery
was a no-ball) and the striker is bowled. -/
def c9m : Match :=
  { baseMatch with live_state := { baseLive with is_free_hit := true } }

def c9wicketBall : BallInput :=
  ⟨0, none, some ⟨WicketType.bowled, "s1", some true⟩⟩

/-- C10 witness input: the dismissed id belongs to neither team and is neither
striker nor non-striker; the `is_striker_out` flag is omitted. -/
def ghostWicketBall : BallInput :=
  ⟨0, none, some ⟨WicketType.caught, "ghost", none⟩⟩

/-- C8 fixture: one recorded ball, then the match is ended manually. -/
def c8ended : Match :=
  { stepOk baseMatch "u" ball0 with status := MatchStatus.completed }

/- ## Helper lemmas -/

theorem recordBall_ok_iff {uid : String} {m : Match} {i : BallInput} {m' : Match} :
    recordBall (some uid) (some m) i = .ok m' ↔
      recordBallError m uid i = none ∧ m' = recordBallSuccess m i := by
  unfold recordBall
  cases h : recordBallError m uid i <;> simp [h, eq_comm]

theorem recordBallSuccess_live (m : Match) (i : BallInput) :
    (recordBallSuccess m i).live_state = (applyBall m i).1 := rfl

theorem recordBallSuccess_log (m : Match) (i : BallInput) :
    (recordBallSuccess m i).log = m.log ++ [(applyBall m i).2] := rfl

theorem recordBallSuccess_owner (m : Match) (i : BallInput) :
    (recordBallSuccess m i).owner_id = m.owner_id := rfl

theorem recordBallSuccess_auth (m : Match) (i : BallInput) :
    (recordBallSuccess m i).authorized_user_ids = m.authorized_user_ids := rfl

theorem recordBallSuccess_config (m : Match) (i : BallInput) :
    (recordBallSuccess m i).config = m.config := rfl

theorem recordBallSuccess_status (m : Match) (i : BallInput) :
    (recordBallSuccess m i).status =
      if (computeResultPayload m (applyBall m i).1).isSome then MatchStatus.completed
      else m.status := rfl

theorem recordBallSuccess_result (m : Match) (i : BallInput) :
    (recordBallSuccess m i).result =
      (computeResultPayload m (applyBall m i).1).or m.result := rfl

theorem applyBall_pre (m : Match) (i : BallInput) :
    (applyBall m i).2.pre_ball_state = m.live_state := rfl

theorem applyBall_bowler (m : Match) (i : BallInput) :
    (applyBall m i).1.bowler_id = m.live_state.bowler_id := rfl

theorem applyBall_last_bowler (m : Match) (i : BallInput) :
    (applyBall m i).1.last_bowler_id =
      if ballCompletesOver m i then some m.live_state.bowler_id
      else m.live_state.last_bowler_id := rfl

theorem applyBall_current_innings (m : Match) (i : BallInput) :
    (applyBall m i).1.current_innings = m.live_state.current_innings := rfl

theorem applyBall_first_innings_total (m : Match) (i : BallInput) :
    (applyBall m i).1.first_innings_total = m.live_state.first_innings_total := rfl

theorem applyBall_score (m : Match) (i : BallInput) :
    (applyBall m i).1.score =
      ⟨m.live_state.score.runs + calculateRuns i,
       m.live_state.score.wickets + (if wicketTaken i then 1 else 0),
       (if ballCompletesOver m i then m.live_state.score.overs + 1
        else m.live_state.score.overs),
       (if ballCompletesOver m i then 0
        else if isLegalDelivery i.extras then m.live_state.score.balls + 1
        else m.live_state.score.balls)⟩ := rfl

theorem applyBall_striker (m : Match) (i : BallInput) :
    (applyBall m i).1.striker_id =
      if decide ((i.runs_off_bat % 2 = 1 ∨ ballCompletesOver m i = true) ∧
          strikerAfterWicket m i ≠ "" ∧ nonStrikerAfterWicket m i ≠ "")
      then nonStrikerAfterWicket m i else strikerAfterWicket m i := rfl

theorem applyBall_non_striker (m : Match) (i : BallInput) :
    (applyBall m i).1.non_striker_id =
      if decide ((i.runs_off_bat % 2 = 1 ∨ ballCompletesOver m i = true) ∧
          strikerAfterWicket m i ≠ "" ∧ nonStrikerAfterWicket m i ≠ "")
      then strikerAfterWicket m i else nonStrikerAfterWicket m i := rfl

theorem applyBall_dismissed (m : Match) (i : BallInput) :
    (applyBall m i).1.dismissed_batter_ids =
      (if wicketTaken i then
        (if wicketPlayerId i ∈ jsDedup m.live_state.dismissed_batter_ids then
          jsDedup m.live_state.dismissed_batter_ids
         else jsDedup m.live_state.dismissed_batter_ids ++ [wicketPlayerId i])
       else jsDedup m.live_state.dismissed_batter_ids) := rfl

theorem recordBallError_none_iff (m : Match) (uid : String) (i : BallInput) :
    recordBallError m uid i = none ↔ ¬ listedViolation m uid i := by
  unfold recordBallError listedViolation
  repeat' split
  all_goals simp_all [wicketPlayerId]

theorem recordBall_ok_shape {u : Option String} {m : Match} {i : BallInput}
    {m' : Match} (h : recordBall u (some m) i = .ok m') :
    m' = recordBallSuccess m i := by
  cases u with
  | none => simp [recordBall] at h
  | some uid => exact (recordBall_ok_iff.mp h).2

theorem recordBall_ok_error_none {u : Option String} {m : Match} {i : BallInput}
    {m' : Match} (h : recordBall u (some m) i = .ok m') :
    ∃ uid, u = some uid ∧ recordBallError m uid i = none := by
  cases u with
  | none => simp [recordBall] at h
  | some uid => exact ⟨uid, rfl, (recordBall_ok_iff.mp h).1⟩

theorem undoLastBall_ok {uid : String} {m : Match} {l : List BallEvent}
    {ev : BallEvent} (hacc : scoringAccessOk m uid = true) (hlog : m.log = l ++ [ev]) :
    undoLastBall (some uid) (some m) =
      .ok { m with
            live_state := clearBoundaryBowler ev.pre_ball_state,
            status := MatchStatus.live, result := none, log := l } := by
  unfold undoLastBall
  simp [hacc, hlog, List.getLast?_concat, List.dropLast_concat]

theorem undoLastBall_ok_inv {uid : String} {m m' : Match}
    (h : undoLastBall (some uid) (some m) = .ok m') :
    ∃ ev, m.log.getLast? = some ev ∧
      m' = { m with
             live_state := clearBoundaryBowler ev.pre_ball_state,
             status := MatchStatus.live, result := none, log := m.log.dropLast } := by
  simp only [undoLastBall] at h
  by_cases hacc : scoringAccessOk m uid = true
  · simp only [hacc, not_true, if_neg, ite_false, not_false_iff] at h
    cases hl : m.log.getLast? with
    | none => rw [hl] at h; simp at h
    | some ev => rw [hl] at h; simp at h; exact ⟨ev, rfl, h.symm⟩
  · simp [hacc] at h

theorem recordSeq_owner_auth {start : Match} {n : Nat} {m' : Match}
    (h : RecordSeq start n m') :
    m'.owner_id = start.owner_id ∧
      m'.authorized_user_ids = start.authorized_user_ids := by
  induction h with
  | nil => exact ⟨rfl, rfl⟩
  | snoc u i hseq hrec ih =>
    rw [recordBall_ok_shape hrec]
    exact ⟨(recordBallSuccess_owner _ _).trans ih.1,
      (recordBallSuccess_auth _ _).trans ih.2⟩

theorem c1_aux {start : Match} {n : Nat} {m₁ : Match}
    (hseq : RecordSeq start n m₁) : 0 < n →
    ∀ (uid : String) (M : Match), scoringAccessOk M uid = true → M.log = m₁.log →
    ∃ M', undoN (some uid) n M = .ok M' ∧
      M'.live_state = clearBoundaryBowler start.live_state ∧
      M'.log = start.log ∧ M'.status = MatchStatus.live ∧ M'.result = none := by
  induction hseq with
  | nil => intro hn; exact absurd hn (by simp)
  | @snoc k mMid m₂ u i hseq hrec ih =>
    intro _ uid M hacc hlog
    have hshape := recordBall_ok_shape hrec
    have hMlog : M.log = mMid.log ++ [(applyBall mMid i).2] := by
      rw [hlog, hshape, recordBallSuccess_log]
    have hundo := undoLastBall_ok hacc hMlog
    rw [applyBall_pre] at hundo
    rcases Nat.eq_zero_or_pos k with hk | hk
    · subst hk
      cases hseq
      refine ⟨{ M with
                live_state := clearBoundaryBowler start.live_state,
                status := MatchStatus.live, result := none, log := start.log },
        ?_, rfl, rfl, rfl, rfl⟩
      simp only [undoN, hundo]
    · have hacc' : scoringAccessOk
          { M with
            live_state := clearBoundaryBowler mMid.live_state,
            status := MatchStatus.live, result := none, log := mMid.log } uid = true := hacc
      obtain ⟨M', hM', h₁, h₂, h₃, h₄⟩ := ih hk uid _ hacc' rfl
      refine ⟨M', ?_, h₁, h₂, h₃, h₄⟩
      simp only [undoN, hundo, hM']

/- ## Claim theorems -/

/-- Claim C1 (corrected, counterexample): a single successful `recordBall`
from a state sitting at an over boundary whose `last_bowler_id` is set,
followed by one `undoLastBall`, does not restore `live_state` exactly:
the undo clears `last_bowler_id`, which was `some "b0"` before the
sequence. -/
theorem c1_counterexample :
    recordBall (some "u") (some c1cm) ball0 = .ok (stepOk c1cm "u" ball0) ∧
    undoLastBall (some "u") (some (stepOk c1cm "u" ball0)) =
      .ok (undoOk (stepOk c1cm "u" ball0) "u") ∧
    c1cm.live_state.last_bowler_id = some "b0" ∧
    (undoOk (stepOk c1cm "u" ball0) "u").live_state.last_bowler_id = none ∧
    (undoOk (stepOk c1cm "u" ball0) "u").live_state ≠ c1cm.live_state :=
  ⟨rfl, rfl, rfl, by decide, by decide⟩

/-- Claim C1 (amended): for every match and every sequence of N ≥ 1
successful `recordBall` calls, N `undoLastBall` calls by an authorized user
succeed and restore `live_state` to its pre-sequence value in every field —
per-player stats, dismissed-batter set included — except that
`last_bowler_id` is cleared when the restored state sits exactly at an over
boundary (`balls == 0 ∧ overs > 0`); the ball log is restored as well. -/
theorem c1_round_trip_amended {start final : Match} {n : Nat} (uid : String)
    (hseq : RecordSeq start n final) (hn : 0 < n)
    (hacc : scoringAccessOk start uid = true) :
    ∃ restored, undoN (some uid) n final = .ok restored ∧
      restored.live_state = clearBoundaryBowler start.live_state ∧
      restored.log = start.log := by
  have hoa := recordSeq_owner_auth hseq
  have haccF : scoringAccessOk final uid = true := by
    unfold scoringAccessOk at hacc ⊢
    rw [hoa.1, hoa.2]
    exact hacc
  obtain ⟨M', h₁, h₂, h₃, -, -⟩ := c1_aux hseq hn uid final haccF rfl
  exact ⟨M', h₁, h₂, h₃⟩

/-- Claim C1 witness: one recorded ball from a mid-over state undone once;
here `clearBoundaryBowler` is the identity, so the restore is exact. -/
theorem c1_round_trip_witness :
    ∃ restored, undoN (some "u") 1 (stepOk c1wm "u" ball1) = .ok restored ∧
      restored.live_state = clearBoundaryBowler c1wm.live_state ∧
      restored.log = c1wm.log :=
  c1_round_trip_amended "u"
    (RecordSeq.snoc (some "u") ball1 RecordSeq.nil rfl) (by decide) rfl

/-- Claim C8 (corrected, counterexample): after a manual `endMatch` (status
Completed, no result attached), `undoLastBall` does not leave the status
unchanged — it flips the match back to Live. -/
theorem c8_counterexample :
    endMatch (some "u") (some (stepOk baseMatch "u" ball0)) = .ok c8ended ∧
    c8ended.status = MatchStatus.completed ∧ c8ended.result = none ∧
    undoLastBall (some "u") (some c8ended) = .ok (undoOk c8ended "u") ∧
    (undoOk c8ended "u").status = MatchStatus.live :=
  ⟨rfl, rfl, rfl, rfl, rfl⟩

/-- Claim C8 (amended): every successful `undoLastBall` — whether or not the
undone event caused completion — sets the status back to Live and deletes the
result field, deletes the undone log entry, and restores the event's pre-ball
snapshot (with the over-boundary `last_bowler_id` clearing). -/
theorem c8_undo_status_amended (uid : String) (m m' : Match)
    (h : undoLastBall (some uid) (some m) = .ok m') :
    m'.status = MatchStatus.live ∧ m'.result = none ∧
      m'.log = m.log.dropLast ∧
      ∃ ev, m.log.getLast? = some ev ∧
        m'.live_state = clearBoundaryBowler ev.pre_ball_state := by
  obtain ⟨ev, hev, rfl⟩ := undoLastBall_ok_inv h
  exact ⟨rfl, rfl, rfl, ev, hev, rfl⟩

/-- Claim C8 witness: the amended statement evaluated on the manual-endMatch
fixture. -/
theorem c8_undo_status_witness :
    (undoOk c8ended "u").status = MatchStatus.live ∧
    (undoOk c8ended "u").result = none := by
  have h := c8_undo_status_amended "u" c8ended (undoOk c8ended "u") rfl
  exact ⟨h.1, h.2.1⟩

/-- Claim C9 (code bug): on a free-hit delivery (`is_free_hit = true` because
the previous delivery was a no-ball), a dismissal of an invalid type for a
free hit (bowled) is not downgraded to not-out: the code counts the wicket,
adds the striker to the dismissed set and clears the striker slot. -/
theorem c9_free_hit_not_enforced :
    c9m.live_state.is_free_hit = true ∧
    recordBall (some "u") (some c9m) c9wicketBall =
      .ok (stepOk c9m "u" c9wicketBall) ∧
    (stepOk c9m "u" c9wicketBall).live_state.score.wickets = 1 ∧
    "s1" ∈ (stepOk c9m "u" c9wicketBall).live_state.dismissed_batter_ids ∧
    (stepOk c9m "u" c9wicketBall).live_state.striker_id = "" :=
  ⟨rfl, rfl, by decide, by decide, by decide⟩

/-- Claim C4 (corrected, counterexample): a committed `recordBall` that
completes an over leaves `bowler_id` and `last_bowler_id` both set and equal
("b1"), so the invariant "bowler_id ≠ last_bowler_id whenever both are set"
does not hold after every committed transition. -/
theorem c4_counterexample :
    recordBall (some "u") (some c4cm) ball0 = .ok (stepOk c4cm "u" ball0) ∧
    (stepOk c4cm "u" ball0).live_state.bowler_id = "b1" ∧
    (stepOk c4cm "u" ball0).live_state.last_bowler_id = some "b1" :=
  ⟨rfl, by decide, by decide⟩

/-- Claim C4 (amended): while `bowler_id` and `last_bowler_id` are both set
and equal, `recordBall` on a live match by an authorized caller is rejected
with an error and writes nothing; a successful `recordBall` never changes
`bowler_id`, and sets `last_bowler_id := bowler_id` exactly when the delivery
completes the over — so the two are equal immediately after an over-completing
ball (until a different bowler is selected), and `bowler_id ≠ last_bowler_id`
is preserved by every committed transition that does not complete an over. -/
theorem c4_no_consecutive_amended :
    (∀ (uid : String) (m : Match) (i : BallInput),
      scoringAccessOk m uid = true → m.status = MatchStatus.live →
      m.live_state.bowler_id ≠ "" →
      m.live_state.last_bowler_id = some m.live_state.bowler_id →
      ∃ e, recordBall (some uid) (some m) i = .error e) ∧
    (∀ (u : Option String) (m : Match) (i : BallInput) (m' : Match),
      recordBall u (some m) i = .ok m' →
      m'.live_state.bowler_id = m.live_state.bowler_id ∧
      m'.live_state.last_bowler_id =
        (if ballCompletesOver m i then some m.live_state.bowler_id
         else m.live_state.last_bowler_id)) := by
  constructor
  · intro uid m i hacc hlive hb hlast
    cases he : recordBall (some uid) (some m) i with
    | error e => exact ⟨e, rfl⟩
    | ok m' =>
      exfalso
      have hnone := (recordBall_ok_iff.mp he).1
      rw [recordBallError_none_iff] at hnone
      apply hnone
      unfold listedViolation
      have hsame : sameBowlerAsLast m.live_state = true := by
        unfold sameBowlerAsLast
        rw [hlast]
        simp [hb]
      exact Or.inr (Or.inr (Or.inr (Or.inr (Or.inr (Or.inr (Or.inl hsame))))))
  · intro u m i m' h
    rw [recordBall_ok_shape h, recordBallSuccess_live]
    exact ⟨applyBall_bowler m i, applyBall_last_bowler m i⟩

/-- Claim C4 witness: with `bowler_id = last_bowler_id = "b1"` on a live
authorized match, `recordBall` errors. -/
theorem c4_witness : ∃ e, recordBall (some "u") (some c4wm) ball0 = .error e :=
  c4_no_consecutive_amended.1 "u" c4wm ball0 rfl rfl (by decide) rfl

/-- Claim C5 (corrected, counterexample): with a single-player batting squad,
`wickets = squadSize − 1 = 0` does not block `recordBall` — the all-out guard
is skipped when `squadSize − 1 = 0` — and the committed wicket drives
`wickets` to `1 > max(squadSize − 1, 0)`. -/
theorem c5_counterexample :
    battingTeamSize c5cm = 1 ∧
    c5cm.live_state.score.wickets = battingTeamSize c5cm - 1 ∧
    recordBall (some "u") (some c5cm) c5wicketBall =
      .ok (stepOk c5cm "u" c5wicketBall) ∧
    (stepOk c5cm "u" c5wicketBall).live_state.score.wickets = 1 :=
  ⟨by decide, by decide, rfl, by decide⟩

/-- Claim C5 (amended): for batting squads of at least two players: once
`wickets ≥ squadSize − 1`, any `recordBall` on a live match by an authorized
caller is rejected, and every successful `recordBall` leaves
`wickets ≤ squadSize − 1`. -/
theorem c5_wicket_ceiling_amended :
    (∀ (uid : String) (m : Match) (i : BallInput),
      2 ≤ battingTeamSize m →
      scoringAccessOk m uid = true → m.status = MatchStatus.live →
      battingTeamSize m - 1 ≤ m.live_state.score.wickets →
      ∃ e, recordBall (some uid) (some m) i = .error e) ∧
    (∀ (u : Option String) (m : Match) (i : BallInput) (m' : Match),
      2 ≤ battingTeamSize m →
      recordBall u (some m) i = .ok m' →
      m'.live_state.score.wickets ≤ battingTeamSize m - 1) := by
  constructor
  · intro uid m i hsize hacc hlive hw
    cases he : recordBall (some uid) (some m) i with
    | error e => exact ⟨e, rfl⟩
    | ok m' =>
      exfalso
      have hnone := (recordBall_ok_iff.mp he).1
      rw [recordBallError_none_iff] at hnone
      apply hnone
      unfold listedViolation
      exact Or.inr (Or.inr (Or.inl ⟨by omega, hw⟩))
  · intro u m i m' hsize h
    obtain ⟨uid, -, hnone⟩ := recordBall_ok_error_none h
    rw [recordBallError_none_iff] at hnone
    have hwick : m.live_state.score.wickets < battingTeamSize m - 1 := by
      by_contra hge
      apply hnone
      unfold listedViolation
      exact Or.inr (Or.inr (Or.inl ⟨by omega, by omega⟩))
    have hW : m'.live_state.score.wickets =
        m.live_state.score.wickets + (if wicketTaken i then 1 else 0) := by
      rw [recordBall_ok_shape h, recordBallSuccess_live, applyBall_score]
    rw [hW]
    split <;> omega

/-- Claim C5 witness: a two-player squad one wicket down rejects the next
ball. -/
theorem c5_witness : ∃ e, recordBall (some "u") (some c5wm) ball0 = .error e :=
  c5_wicket_ceiling_amended.1 "u" c5wm ball0 (by decide) rfl rfl (by decide)

/-- Claim C7 (confirmed): `recordBall` run when logged out or on a missing
match errors; on a present match with a logged-in caller it errors exactly
when one of the listed precondition violations holds (caller unauthorized,
match not live, innings complete by wickets or by overs, dismissed player in
the striker or non-striker slot, consecutive-over violation — which subsumes
the over-boundary pending-bowler case — or an already-dismissed player in the
wicket input); every error leaves the store untouched (no ball event, no
live_state/status/result change), and every success appends exactly one ball
event and installs the computed live state. -/
theorem c7_precondition_atomicity :
    (∀ (s : Option Match) (i : BallInput), ∃ e, recordBall none s i = .error e) ∧
    (∀ (u : String) (i : BallInput), ∃ e, recordBall (some u) none i = .error e) ∧
    (∀ (u : String) (m : Match) (i : BallInput),
      (∃ e, recordBall (some u) (some m) i = .error e) ↔ listedViolation m u i) ∧
    (∀ (u : Option String) (s : Option Match) (i : BallInput) (e : String),
      recordBall u s i = .error e → recordBallStore u s i = s) ∧
    (∀ (u : Option String) (m : Match) (i : BallInput) (m' : Match),
      recordBall u (some m) i = .ok m' →
      m'.log = m.log ++ [(applyBall m i).2] ∧
      m'.live_state = (applyBall m i).1) := by
  refine ⟨?_, ?_, ?_, ?_, ?_⟩
  · intro s i
    exact ⟨_, rfl⟩
  · intro u i
    exact ⟨_, rfl⟩
  · intro u m i
    constructor
    · rintro ⟨e, he⟩
      by_contra hviol
      rw [← recordBallError_none_iff] at hviol
      simp only [recordBall, hviol] at he
      exact Except.noConfusion he
    · intro hviol
      cases he : recordBall (some u) (some m) i with
      | error e => exact ⟨e, rfl⟩
      | ok m' =>
        exfalso
        have hnone := (recordBall_ok_iff.mp he).1
        rw [recordBallError_none_iff] at hnone
        exact hnone hviol
  · intro u s i e h
    unfold recordBallStore
    rw [h]
  · intro u m i m' h
    rw [recordBall_ok_shape h]
    exact ⟨recordBallSuccess_log m i, recordBallSuccess_live m i⟩

/-- Claim C7 witness: a logged-out call errors and leaves the store exactly
as it was. -/
theorem c7_witness :
    recordBall none (some baseMatch) ball0 =
      .error "You must be logged in to score this match." ∧
    recordBallStore none (some baseMatch) ball0 = some baseMatch := by
  have h := c7_precondition_atomicity.2.2.2.1 none (some baseMatch) ball0
    "You must be logged in to score this match." rfl
  exact ⟨rfl, h⟩

/-- Claim C6 (confirmed): a successful `recordBall` swaps the striker and
non-striker slots exactly when the runs off the bat are odd or the delivery
completed the over, and only when both slots are still occupied after wicket
handling; otherwise the (wicket-adjusted) slots are left in place. -/
theorem c6_strike_rotation (u : Option String) (m : Match) (i : BallInput)
    (m' : Match) (h : recordBall u (some m) i = .ok m') :
    ((i.runs_off_bat % 2 = 1 ∨ ballCompletesOver m i = true) ∧
        strikerAfterWicket m i ≠ "" ∧ nonStrikerAfterWicket m i ≠ "" →
      m'.live_state.striker_id = nonStrikerAfterWicket m i ∧
      m'.live_state.non_striker_id = strikerAfterWicket m i) ∧
    (¬((i.runs_off_bat % 2 = 1 ∨ ballCompletesOver m i = true) ∧
        strikerAfterWicket m i ≠ "" ∧ nonStrikerAfterWicket m i ≠ "") →
      m'.live_state.striker_id = strikerAfterWicket m i ∧
      m'.live_state.non_striker_id = nonStrikerAfterWicket m i) := by
  rw [recordBall_ok_shape h, recordBallSuccess_live]
  constructor
  · intro hc
    rw [applyBall_striker, applyBall_non_striker, decide_eq_true hc]
    simp
  · intro hc
    rw [applyBall_striker, applyBall_non_striker, decide_eq_false hc]
    simp

/-- Claim C6 witness: a single with both batters in place swaps them. -/
theorem c6_witness :
    (stepOk baseMatch "u" ball1).live_state.striker_id = "s2" ∧
    (stepOk baseMatch "u" ball1).live_state.non_striker_id = "s1" := by
  have h := (c6_strike_rotation (some "u") baseMatch ball1
    (stepOk baseMatch "u" ball1) rfl).1 (by decide)
  exact ⟨h.1, h.2⟩

/-- Claim C10 (confirmed): the acceptance of a wicket input depends on its
`player_id` only through membership in the dismissed set (a fresh non-empty
id behaves exactly like recording a wicket-free ball — no striker,
non-striker or team-membership check), and a successful `recordBall` with a
wicket increments `wickets` by exactly one, adds the id to the dismissed set,
and clears the striker slot when `is_striker_out` is true or omitted, the
non-striker slot when it is explicitly false. -/
theorem c10_wicket_bookkeeping :
    (∀ (u : String) (m : Match) (i : BallInput) (w : WicketInput),
      i.wicket = some w → w.player_id ≠ "" →
      w.player_id ∉ m.live_state.dismissed_batter_ids →
      recordBallError m u i =
        recordBallError m u ⟨i.runs_off_bat, i.extras, none⟩) ∧
    (∀ (u : Option String) (m : Match) (i : BallInput) (w : WicketInput)
        (m' : Match),
      i.wicket = some w → w.player_id ≠ "" →
      recordBall u (some m) i = .ok m' →
      m'.live_state.score.wickets = m.live_state.score.wickets + 1 ∧
      w.player_id ∈ m'.live_state.dismissed_batter_ids ∧
      (w.is_striker_out.getD true = true → m'.live_state.striker_id = "") ∧
      (w.is_striker_out.getD true = false →
        m'.live_state.non_striker_id = "")) := by
  constructor
  · intro u m i w hw hpid hmem
    unfold recordBallError
    rw [hw]
    have hfin :
        (if w.player_id ≠ "" ∧ w.player_id ∈ m.live_state.dismissed_batter_ids
         then some "This batter has already been dismissed."
         else (none : Option String)) = none := by
      rw [if_neg]
      rintro ⟨-, hm⟩
      exact hmem hm
    dsimp only
    rw [hfin]
  · intro u m i w m' hw hpid h
    have hshape := recordBall_ok_shape h
    have hpid' : wicketPlayerId i = w.player_id := by
      simp [wicketPlayerId, hw]
    have hWT : wicketTaken i = true := by
      simp [wicketTaken, hpid', hpid]
    refine ⟨?_, ?_, ?_, ?_⟩
    · rw [hshape, recordBallSuccess_live, applyBall_score]
      simp [hWT]
    · rw [hshape, recordBallSuccess_live, applyBall_dismissed, hWT, hpid']
      by_cases hmem2 : w.player_id ∈ jsDedup m.live_state.dismissed_batter_ids
      · simp [hmem2]
      · simp [hmem2]
    · intro his
      have hso : isStrikerOut i = true := by
        simp [isStrikerOut, hw, his]
      have hsw : strikerAfterWicket m i = "" := by
        simp [strikerAfterWicket, hWT, hso]
      rw [hshape, recordBallSuccess_live, applyBall_striker]
      simp [hsw]
    · intro his
      have hso : isStrikerOut i = false := by
        simp [isStrikerOut, hw, his]
      have hnsw : nonStrikerAfterWicket m i = "" := by
        simp [nonStrikerAfterWicket, hWT, hso]
      rw [hshape, recordBallSuccess_live, applyBall_non_striker]
      simp [hnsw]

/-- Claim C10 witness: a wicket charged to an id that belongs to neither team
and occupies neither slot is accepted; wickets goes to 1, the id is
dismissed, and the striker slot is cleared by default. -/
theorem c10_witness :
    recordBall (some "u") (some baseMatch) ghostWicketBall =
      .ok (stepOk baseMatch "u" ghostWicketBall) ∧
    (stepOk baseMatch "u" ghostWicketBall).live_state.score.wickets = 1 ∧
    "ghost" ∈ (stepOk baseMatch "u" ghostWicketBall).live_state.dismissed_batter_ids ∧
    (stepOk baseMatch "u" ghostWicketBall).live_state.striker_id = "" := by
  have h := c10_wicket_bookkeeping.2 (some "u") baseMatch ghostWicketBall
    ⟨WicketType.caught, "ghost", none⟩ (stepOk baseMatch "u" ghostWicketBall)
    rfl (by decide) rfl
  exact ⟨rfl, h.1, h.2.1, h.2.2.1 rfl⟩

/-- Claim C3 (confirmed): in the second innings with `first_innings_total`
recorded, a successful `recordBall` that brings the chasing side's runs to at
least `first_innings_total + 1` commits status Completed together with a Win
result for the chasing team, the margin expressed in wickets remaining when
positive, otherwise in balls remaining. -/
theorem c3_chase_win (u : Option String) (m : Match) (i : BallInput)
    (m' : Match) (F : Nat)
    (h : recordBall u (some m) i = .ok m')
    (h2 : m.live_state.current_innings = 2)
    (hF : m.live_state.first_innings_total = some F)
    (hT : F + 1 ≤ m'.live_state.score.runs) :
    m'.status = MatchStatus.completed ∧
    ∃ r, m'.result = some r ∧ r.type = ResultType.win ∧
      r.winner_team_id = some (chasingTeamIdOf m'.live_state) ∧
      r.loser_team_id = some (defendingTeamIdOf m'.live_state) ∧
      r.margin = some (if 0 < chaseWicketsRemaining m m'.live_state
        then pluralize (chaseWicketsRemaining m m'.live_state) "wicket"
        else pluralize (chaseBallsRemaining m m'.live_state) "ball") ∧
      r.first_innings_runs = F ∧
      r.second_innings_runs = m'.live_state.score.runs := by
  have hshape := recordBall_ok_shape h
  subst hshape
  have hci : (applyBall m i).1.current_innings = 2 := by
    rw [applyBall_current_innings]
    exact h2
  have hfi : (applyBall m i).1.first_innings_total = some F := by
    rw [applyBall_first_innings_total]
    exact hF
  have hT' : F + 1 ≤ (applyBall m i).1.score.runs := hT
  have hpayload : computeResultPayload m (applyBall m i).1 = some
      ⟨ResultType.win, some (chasingTeamIdOf (applyBall m i).1),
       some (defendingTeamIdOf (applyBall m i).1),
       some (if 0 < chaseWicketsRemaining m (applyBall m i).1
         then pluralize (chaseWicketsRemaining m (applyBall m i).1) "wicket"
         else pluralize (chaseBallsRemaining m (applyBall m i).1) "ball"),
       teamNameOf m (chasingTeamIdOf (applyBall m i).1) "Chasing team" ++
         " won by " ++
         (if 0 < chaseWicketsRemaining m (applyBall m i).1
          then pluralize (chaseWicketsRemaining m (applyBall m i).1) "wicket"
          else pluralize (chaseBallsRemaining m (applyBall m i).1) "ball"),
       F, (applyBall m i).1.score.runs⟩ := by
    unfold computeResultPayload
    rw [hci, hfi]
    simp [hT']
  constructor
  · rw [recordBallSuccess_status, hpayload]
    rfl
  · rw [recordBallSuccess_result, hpayload]
    exact ⟨_, rfl, rfl, rfl, rfl, rfl, rfl, rfl⟩

/-- Claim C3 witness: the spec scenario — chasing 150 at 149/3 with a
five-player squad, a two off the bat wins by the one wicket remaining. -/
theorem c3_witness :
    (stepOk c3m "u" ball2).status = MatchStatus.completed ∧
    ∃ r, (stepOk c3m "u" ball2).result = some r ∧ r.type = ResultType.win ∧
      r.winner_team_id = some (chasingTeamIdOf (stepOk c3m "u" ball2).live_state) ∧
      r.loser_team_id = some (defendingTeamIdOf (stepOk c3m "u" ball2).live_state) ∧
      r.margin = some (if 0 < chaseWicketsRemaining c3m (stepOk c3m "u" ball2).live_state
        then pluralize (chaseWicketsRemaining c3m (stepOk c3m "u" ball2).live_state) "wicket"
        else pluralize (chaseBallsRemaining c3m (stepOk c3m "u" ball2).live_state) "ball") ∧
      r.first_innings_runs = 150 ∧
      r.second_innings_runs = (stepOk c3m "u" ball2).live_state.score.runs :=
  c3_chase_win (some "u") c3m ball2 (stepOk c3m "u" ball2) 150 rfl rfl rfl
    (by decide)

theorem recordBall_legal_counts {u : Option String} {m : Match} {i : BallInput}
    {m' : Match} (h : recordBall u (some m) i = .ok m')
    (hleg : isLegalDelivery i.extras = true)
    (hb : m.live_state.score.balls ≤ 5) :
    m'.live_state.score.overs * 6 + m'.live_state.score.balls =
      m.live_state.score.overs * 6 + m.live_state.score.balls + 1 ∧
    m'.live_state.score.balls ≤ 5 := by
  rw [recordBall_ok_shape h, recordBallSuccess_live, applyBall_score]
  by_cases h6 : (6 : Nat) ≤ m.live_state.score.balls + 1
  · simp only [ballCompletesOver, hleg, Bool.true_and, h6, decide_True, if_true]
    constructor <;> omega
  · simp only [ballCompletesOver, hleg, Bool.true_and, h6, decide_False,
      Bool.false_eq_true, if_false, if_true]
    constructor <;> omega

theorem recordBall_illegal_counts {u : Option String} {m : Match}
    {i : BallInput} {m' : Match} (h : recordBall u (some m) i = .ok m')
    (hleg : isLegalDelivery i.extras = false) :
    m'.live_state.score.overs = m.live_state.score.overs ∧
    m'.live_state.score.balls = m.live_state.score.balls ∧
    m'.live_state.score.runs = m.live_state.score.runs + calculateRuns i := by
  rw [recordBall_ok_shape h, recordBallSuccess_live, applyBall_score]
  simp [ballCompletesOver, hleg]

theorem handleNewBowlerSelect_score (m : Match) (b : String) :
    (handleNewBowlerSelect m b).live_state.score = m.live_state.score := by
  unfold handleNewBowlerSelect
  repeat' split
  all_goals rfl

theorem handleNewBatterSelect_score (m : Match) (b : String) :
    (handleNewBatterSelect m b).live_state.score = m.live_state.score := by
  unfold handleNewBatterSelect
  repeat' split
  all_goals rfl

theorem c2_aux {m : Match} {n : Nat} {m' : Match} (h : ScoringChain m n m')
    (hb : m.live_state.score.balls ≤ 5) :
    m'.live_state.score.overs * 6 + m'.live_state.score.balls =
      m.live_state.score.overs * 6 + m.live_state.score.balls + n ∧
    m'.live_state.score.balls ≤ 5 := by
  induction h with
  | nil => exact ⟨by omega, hb⟩
  | step hchain hstep ih =>
    obtain ⟨ih1, ih2⟩ := ih
    cases hstep with
    | record_legal u i hrec hleg =>
      obtain ⟨e1, e2⟩ := recordBall_legal_counts hrec hleg ih2
      exact ⟨by omega, e2⟩
    | record_illegal u i hrec hleg =>
      obtain ⟨e1, e2, -⟩ := recordBall_illegal_counts hrec hleg
      refine ⟨?_, ?_⟩
      · rw [e1, e2]
        omega
      · rw [e2]
        exact ih2
    | select_bowler b =>
      rw [handleNewBowlerSelect_score]
      exact ⟨by omega, ih2⟩
    | select_batter b =>
      rw [handleNewBatterSelect_score]
      exact ⟨by omega, ih2⟩

/-- Claim C2 (amended): across any scoring sequence containing exactly 6
legal deliveries (with any number of interleaved wides/no-balls and bowler or
batter selections), starting from a state with `balls ≤ 5`, `overs` increases
by exactly 1 and `balls` returns to its pre-sequence value — in particular
`balls = 0` when the sequence starts at an over boundary; and a committed
wide/no-ball adds its runs but changes neither `balls` nor `overs`. -/
theorem c2_over_arithmetic_amended :
    (∀ (m m' : Match), m.live_state.score.balls ≤ 5 → ScoringChain m 6 m' →
      m'.live_state.score.overs = m.live_state.score.overs + 1 ∧
      m'.live_state.score.balls = m.live_state.score.balls) ∧
    (∀ (u : Option String) (m : Match) (i : BallInput) (m' : Match),
      recordBall u (some m) i = .ok m' → isLegalDelivery i.extras = false →
      m'.live_state.score.balls = m.live_state.score.balls ∧
      m'.live_state.score.overs = m.live_state.score.overs ∧
      m'.live_state.score.runs = m.live_state.score.runs + calculateRuns i) := by
  constructor
  · intro m m' hb hchain
    obtain ⟨ht, hb'⟩ := c2_aux hchain hb
    constructor <;> omega
  · intro u m i m' h hleg
    obtain ⟨e1, e2, e3⟩ := recordBall_illegal_counts h hleg
    exact ⟨e2, e1, e3⟩

/-- Claim C2 (corrected, counterexample): starting three balls into an over,
6 successful legal deliveries (with the required new-bowler selection after
the over completes mid-sequence) end with `balls = 3`, not `balls = 0`. -/
theorem c2_counterexample :
    c2cm.live_state.score.balls = 3 ∧
    ScoringChain c2cm 6
      (stepOk (stepOk (stepOk (handleNewBowlerSelect
        (stepOk (stepOk (stepOk c2cm "u" ball0) "u" ball0) "u" ball0) "b2")
        "u" ball0) "u" ball0) "u" ball0) ∧
    (stepOk (stepOk (stepOk (handleNewBowlerSelect
        (stepOk (stepOk (stepOk c2cm "u" ball0) "u" ball0) "u" ball0) "b2")
        "u" ball0) "u" ball0) "u" ball0).live_state.score.balls = 3 ∧
    (stepOk (stepOk (stepOk (handleNewBowlerSelect
        (stepOk (stepOk (stepOk c2cm "u" ball0) "u" ball0) "u" ball0) "b2")
        "u" ball0) "u" ball0) "u" ball0).live_state.score.overs =
      c2cm.live_state.score.overs + 1 := by
  refine ⟨rfl, ?_, by decide, by decide⟩
  exact ScoringChain.step (ScoringChain.step (ScoringChain.step
    (ScoringChain.step (ScoringChain.step (ScoringChain.step
      (ScoringChain.step (ScoringChain.nil c2cm)
        (ScoringStep.record_legal (some "u") ball0 rfl rfl))
      (ScoringStep.record_legal (some "u") ball0 rfl rfl))
      (ScoringStep.record_legal (some "u") ball0 rfl rfl))
      (ScoringStep.select_bowler _ "b2"))
      (ScoringStep.record_legal (some "u") ball0 rfl rfl))
      (ScoringStep.record_legal (some "u") ball0 rfl rfl))
      (ScoringStep.record_legal (some "u") ball0 rfl rfl)

/-- Claim C2 witness: six legal deliveries from an over boundary roll the
over: `overs + 1` and `balls = 0`. -/
theorem c2_witness :
    (stepOk (stepOk (stepOk (stepOk (stepOk (stepOk baseMatch "u" ball0)
        "u" ball0) "u" ball0) "u" ball0) "u" ball0) "u" ball0).live_state.score.overs =
      baseMatch.live_state.score.overs + 1 ∧
    (stepOk (stepOk (stepOk (stepOk (stepOk (stepOk baseMatch "u" ball0)
        "u" ball0) "u" ball0) "u" ball0) "u" ball0) "u" ball0).live_state.score.balls =
      baseMatch.live_state.score.balls :=
  c2_over_arithmetic_amended.1 baseMatch _ (by decide)
    (ScoringChain.step (ScoringChain.step (ScoringChain.step
      (ScoringChain.step (ScoringChain.step (ScoringChain.step
        (ScoringChain.nil baseMatch)
        (ScoringStep.record_legal (some "u") ball0 rfl rfl))
        (ScoringStep.record_legal (some "u") ball0 rfl rfl))
        (ScoringStep.record_legal (some "u") ball0 rfl rfl))
        (ScoringStep.record_legal (some "u") ball0 rfl rfl))
        (ScoringStep.record_legal (some "u") ball0 rfl rfl))
        (ScoringStep.record_legal (some "u") ball0 rfl rfl))

end Cricket
